import Mathlib

/-!
Shallow embedding of the request-signing and request-dispatch core of the
trading-bot repository (src/bot.py), together with the CLI-visible trading
operations built on top of it. Machine words are `Nat` with explicit
reduction modulo 2^32 where the algorithms demand it; Python floats are
modelled as exact rationals (every numeric literal exercised here is exactly
representable); fallible Python code (exceptions caught by the broad
`except` handlers) is modelled with `Option`.
-/

namespace TradingBotSpec

/-! ## 32-bit word primitives (SHA-256 arithmetic) -/

/-- Reduce a natural number to a 32-bit word, as Python's `hashlib` does
implicitly by working on fixed-width words. -/
def w32 (n : Nat) : Nat := n % 4294967296

/-- Right rotation of a 32-bit word by `n` places. -/
def rotr (n x : Nat) : Nat := w32 ((x >>> n) ||| (x <<< (32 - n)))

/-- Big-endian byte rendering of `n` on `k` bytes. -/
def beBytes : Nat → Nat → List Nat
  | 0, _ => []
  | k + 1, n => (n / 256 ^ k) % 256 :: beBytes k n

/-! ## SHA-256 (the `hashlib.sha256` primitive used by `_generate_signature`) -/

/-- The 64 SHA-256 round constants of FIPS 180-4 (the fractional parts of
the cube roots of the first 64 primes), written in decimal. -/
def K256 : List Nat :=
  [1116352408, 1899447441, 3049323471, 3921009573, 961987163, 1508970993,
   2453635748, 2870763221, 3624381080, 310598401, 607225278, 1426881987,
   1925078388, 2162078206, 2614888103, 3248222580, 3835390401, 4022224774,
   264347078, 604807628, 770255983, 1249150122, 1555081692, 1996064986,
   2554220882, 2821834349, 2952996808, 3210313671, 3336571891, 3584528711,
   113926993, 338241895, 666307205, 773529912, 1294757372, 1396182291,
   1695183700, 1986661051, 2177026350, 2456956037, 2730485921, 2820302411,
   3259730800, 3345764771, 3516065817, 3600352804, 4094571909, 275423344,
   430227734, 506948616, 659060556, 883997877, 958139571, 1322822218,
   1537002063, 1747873779, 1955562222, 2024104815, 2227730452, 2361852424,
   2428436474, 2756734187, 3204031479, 3329325298]

/-- Append the SHA-256 padding to a byte string: a 0x80 byte, zeros up to
56 mod 64, then the bit length on 8 big-endian bytes. -/
def padMessage (ms : List Nat) : List Nat :=
  let L := ms.length
  ms ++ (128 :: List.replicate ((120 - (L + 1) % 64) % 64) 0) ++ beBytes 8 (8 * L)

/-- Split a byte string into 64-byte blocks, structurally; `acc` holds the
current block in reverse. The padded input is always a multiple of 64 bytes. -/
def chunk64 : List Nat → List Nat → List (List Nat)
  | [], acc => if acc.isEmpty then [] else [acc.reverse]
  | b :: bs, acc =>
    if acc.length == 63 then (b :: acc).reverse :: chunk64 bs []
    else chunk64 bs (b :: acc)

/-- Pack a byte string into big-endian 32-bit words, four bytes at a time;
`acc`/`k` hold the partially assembled word and its byte count. -/
def packWords : List Nat → Nat → Nat → List Nat
  | [], _, _ => []
  | b :: bs, acc, k =>
    if k == 3 then (acc * 256 + b) :: packWords bs 0 0
    else packWords bs (acc * 256 + b) (k + 1)

/-- SHA-256 message-schedule sigma-0. -/
def ssig0 (x : Nat) : Nat := (rotr 7 x) ^^^ (rotr 18 x) ^^^ (x >>> 3)

/-- SHA-256 message-schedule sigma-1. -/
def ssig1 (x : Nat) : Nat := (rotr 17 x) ^^^ (rotr 19 x) ^^^ (x >>> 10)

/-- SHA-256 compression Sigma-0. -/
def bsig0 (x : Nat) : Nat := (rotr 2 x) ^^^ (rotr 13 x) ^^^ (rotr 22 x)

/-- SHA-256 compression Sigma-1. -/
def bsig1 (x : Nat) : Nat := (rotr 6 x) ^^^ (rotr 11 x) ^^^ (rotr 25 x)

/-- Extend a 16-word block to the 64-word message schedule, appending `k`
more words. -/
def extendSchedule : Nat → List Nat → List Nat
  | 0, w => w
  | k + 1, w =>
    let i := w.length
    extendSchedule k (w ++ [w32 (ssig1 (w.getD (i - 2) 0) + w.getD (i - 7) 0 +
      ssig0 (w.getD (i - 15) 0) + w.getD (i - 16) 0)])

/-- The eight 32-bit working variables of the SHA-256 compression function. -/
structure Sha256State where
  a : Nat
  b : Nat
  c : Nat
  d : Nat
  e : Nat
  f : Nat
  g : Nat
  h : Nat

/-- The SHA-256 initial hash value of FIPS 180-4 (the fractional parts of
the square roots of the first 8 primes), written in decimal. -/
def sha256Init : Sha256State :=
  ⟨1779033703, 3144134277, 1013904242, 2773480762,
   1359893119, 2600822924, 528734635, 1541459225⟩

/-- One round of the SHA-256 compression function on a (round constant,
schedule word) pair. -/
def compressRound (st : Sha256State) (kw : Nat × Nat) : Sha256State :=
  let ch := (st.e &&& st.f) ^^^ ((st.e ^^^ 4294967295) &&& st.g)
  let maj := (st.a &&& st.b) ^^^ (st.a &&& st.c) ^^^ (st.b &&& st.c)
  let t1 := w32 (st.h + bsig1 st.e + ch + kw.1 + kw.2)
  let t2 := w32 (bsig0 st.a + maj)
  ⟨w32 (t1 + t2), st.a, st.b, st.c, w32 (st.d + t1), st.e, st.f, st.g⟩

/-- Process one 64-byte block: run the 64 compression rounds and add the
result into the chaining state. -/
def processChunk (st : Sha256State) (block : List Nat) : Sha256State :=
  let w := extendSchedule 48 (packWords block 0 0)
  let r := (K256.zip w).foldl compressRound st
  ⟨w32 (st.a + r.a), w32 (st.b + r.b), w32 (st.c + r.c), w32 (st.d + r.d),
   w32 (st.e + r.e), w32 (st.f + r.f), w32 (st.g + r.g), w32 (st.h + r.h)⟩

/-- Serialize the chaining state to the 32 digest bytes, big-endian per word. -/
def digestBytes (st : Sha256State) : List Nat :=
  beBytes 4 st.a ++ beBytes 4 st.b ++ beBytes 4 st.c ++ beBytes 4 st.d ++
  beBytes 4 st.e ++ beBytes 4 st.f ++ beBytes 4 st.g ++ beBytes 4 st.h

/-- SHA-256 of a byte string, as the list of its 32 digest bytes. -/
def sha256 (msg : List Nat) : List Nat :=
  digestBytes ((chunk64 (padMessage msg) []).foldl processChunk sha256Init)

/-! ## HMAC-SHA256 (the `hmac.new(..., hashlib.sha256)` primitive) -/

/-- HMAC-SHA256 with the 64-byte block size: keys longer than a block are
hashed first, then zero-padded; inner pad 0x36, outer pad 0x5c. -/
def hmacSha256 (key msg : List Nat) : List Nat :=
  let k0 := if key.length > 64 then sha256 key else key
  let kp := k0 ++ List.replicate (64 - k0.length) 0
  sha256 ((kp.map (fun b => b ^^^ 92)) ++ sha256 ((kp.map (fun b => b ^^^ 54)) ++ msg))

/-! ## Hex rendering (`hexdigest`) and UTF-8 encoding (`str.encode`) -/

/-- The sixteen lowercase hexadecimal digit characters. -/
def hexDigits : List Char := "0123456789abcdef".data

/-- The lowercase hexadecimal digit for a value below 16. -/
def hexDigitChar (n : Nat) : Char := hexDigits.getD n '0'

/-- Render a byte string as lowercase hexadecimal, two digits per byte, as
`hexdigest` does. -/
def hexOfBytes : List Nat → List Char
  | [] => []
  | b :: bs => hexDigitChar (b / 16 % 16) :: hexDigitChar (b % 16) :: hexOfBytes bs

/-- UTF-8 encoding of a single Unicode code point. -/
def utf8Char (n : Nat) : List Nat :=
  if n < 128 then [n]
  else if n < 2048 then [192 + n / 64, 128 + n % 64]
  else if n < 65536 then [224 + n / 4096, 128 + n / 64 % 64, 128 + n % 64]
  else [240 + n / 262144, 128 + n / 4096 % 64, 128 + n / 64 % 64, 128 + n % 64]

/-- UTF-8 encoding of a string (Python's `s.encode('utf-8')`). -/
def utf8 (s : String) : List Nat := (s.data.map (fun c => utf8Char c.toNat)).flatten

/-! ## URL form-encoding (`urllib.parse.urlencode`, via `quote_plus`) -/

/-- The sixteen uppercase hexadecimal digit characters, used by
percent-encoding. -/
def hexDigitsUpper : List Char := "0123456789ABCDEF".data

/-- Percent-encode one byte as `%XX` with uppercase hex, as `quote` does. -/
def percentByte (b : Nat) : List Char :=
  ['%', hexDigitsUpper.getD (b / 16 % 16) '0', hexDigitsUpper.getD (b % 16) '0']

/-- The characters `quote` never encodes: ASCII letters, digits, and
`_`, `.`, `-`, `~`. -/
def isSafeChar (c : Char) : Bool :=
  ('A' ≤ c && c ≤ 'Z') || ('a' ≤ c && c ≤ 'z') || ('0' ≤ c && c ≤ '9') ||
  c == '_' || c == '.' || c == '-' || c == '~'

/-- Behavior of `quote_plus` on one character: safe characters pass through, a space
becomes `+`, everything else is percent-encoded byte by byte over UTF-8. -/
def quotePlusChar (c : Char) : List Char :=
  if isSafeChar c then [c]
  else if c == ' ' then ['+']
  else ((utf8Char c.toNat).map percentByte).flatten

/-- Python's `quote_plus` with an empty safe set, as `urlencode` applies it. -/
def quotePlus (s : String) : String := String.mk (s.data.map quotePlusChar).flatten

/-- Python's `urlencode` on a mapping, keys in insertion order:
`quote_plus(k)=quote_plus(v)` pairs joined by `&`. -/
def urlencode (params : List (String × String)) : String :=
  String.intercalate "&" (params.map (fun kv => quotePlus kv.1 ++ "=" ++ quotePlus kv.2))

/-- Model of `TradingBot._generate_signature` (src/bot.py lines 30-38): HMAC-SHA256 of
the UTF-8 bytes of the url-encoded parameters, keyed by the UTF-8 bytes of
the API secret, rendered as a lowercase hex digest. -/
def generateSignature (apiSecret : String) (params : List (String × String)) : String :=
  String.mk (hexOfBytes (hmacSha256 (utf8 apiSecret) (utf8 (urlencode params))))

/-! ## JSON values and the Python semantics the handlers rely on -/

/-- A parsed JSON value, as `response.json()` yields it: `None`, `bool`,
number (Python floats modelled as exact rationals), `str`, `list`, `dict`
(fields in insertion order). -/
inductive Json where
  | null : Json
  | bool (b : Bool) : Json
  | num (q : ℚ) : Json
  | str (s : String) : Json
  | arr (items : List Json) : Json
  | obj (fields : List (String × Json)) : Json

/-- Python truthiness of a parsed JSON value: `None`, `False`, zero, the
empty string, the empty list and the empty dict are falsy. -/
def pyTruthy : Json → Bool
  | .null => false
  | .bool b => b
  | .num q => q != 0
  | .str s => s != ""
  | .arr items => !items.isEmpty
  | .obj fields => !fields.isEmpty

/-- First-match lookup in a dict's fields (Python dicts cannot hold duplicate
keys, so first-match agrees with dict lookup). -/
def dictGet : List (String × Json) → String → Option Json
  | [], _ => none
  | (k, v) :: rest, key => if k == key then some v else dictGet rest key

/-- Python's `key in data` on a parsed JSON value; `none` models the
`TypeError` raised on numbers, booleans and `None`. -/
def pyContains (j : Json) (key : String) : Option Bool :=
  match j with
  | .obj fields => some (fields.any (fun kv => kv.1 == key))
  | .arr items => some (items.any (fun it => match it with | .str s => s == key | _ => false))
  | .str s => some (decide (key.data <:+: s.data))
  | _ => none

/-- Python's `data[key]` with a string key: dict lookup (`none` models the
`KeyError` on a missing key and the `TypeError` on every non-dict). -/
def pyIndexStr (j : Json) (key : String) : Option Json :=
  match j with
  | .obj fields => dictGet fields key
  | _ => none

/-- Python's iteration over a parsed JSON value: a list yields its items, a
dict its keys, a string its characters; `none` models the `TypeError` on
numbers, booleans and `None`. -/
def pyIter : Json → Option (List Json)
  | .arr items => some items
  | .obj fields => some (fields.map (fun kv => Json.str kv.1))
  | .str s => some (s.data.map (fun c => Json.str (String.mk [c])))
  | _ => none

/-- Python's `len` on a parsed JSON value; `none` models the `TypeError` on
numbers, booleans and `None`. -/
def pyLen : Json → Option Nat
  | .arr items => some items.length
  | .obj fields => some fields.length
  | .str s => some s.length
  | _ => none

/-- Whether a character counts as whitespace for Python's `float(str)`: the
six characters `str.strip` removes. -/
def isPySpace (c : Char) : Bool := " \t\n\r\x0b\x0c".data.contains c

/-- Consume a run of decimal digits, returning the accumulated value, the
digit count, and the rest. -/
def parseDigits : List Char → Nat → Nat → Nat × Nat × List Char
  | [], acc, cnt => (acc, cnt, [])
  | c :: cs, acc, cnt =>
    if '0' ≤ c && c ≤ '9' then parseDigits cs (acc * 10 + (c.toNat - 48)) (cnt + 1)
    else (acc, cnt, c :: cs)

/-- Parse an optional exponent suffix, returning its sign and magnitude; the
input must then be exhausted. -/
def parseExpPart (cs : List Char) : Option (Bool × Nat) :=
  match cs with
  | [] => some (false, 0)
  | c :: rest =>
    if c == 'e' || c == 'E' then
      let sr : Bool × List Char :=
        match rest with
        | '-' :: r => (true, r)
        | '+' :: r => (false, r)
        | r => (false, r)
      let (ev, ecnt, cs2) := parseDigits sr.2 0 0
      if ecnt == 0 || !cs2.isEmpty then none else some (sr.1, ev)
    else none

/-- The exact rational value of a parsed decimal literal: sign, mantissa
(integer and fraction digits run together), fraction-digit count, exponent
sign and magnitude. -/
def decValue (neg : Bool) (mant fcnt : Nat) (esgn : Bool) (ev : Nat) : ℚ :=
  let num : Int := if neg then -(mant : Int) else (mant : Int)
  if esgn then mkRat num (10 ^ (fcnt + ev)) else mkRat (num * 10 ^ ev) (10 ^ fcnt)

/-- Parse a stripped decimal literal: optional sign, integer digits, optional
fraction, optional exponent. -/
def parseFloatCore (cs : List Char) : Option ℚ :=
  let sc : Bool × List Char :=
    match cs with
    | '-' :: rest => (true, rest)
    | '+' :: rest => (false, rest)
    | rest => (false, rest)
  let (ip, icnt, cs2) := parseDigits sc.2 0 0
  match cs2 with
  | '.' :: cs3 =>
    let (fp, fcnt, cs4) := parseDigits cs3 0 0
    if icnt == 0 && fcnt == 0 then none
    else
      match parseExpPart cs4 with
      | none => none
      | some (esgn, ev) => some (decValue sc.1 (ip * 10 ^ fcnt + fp) fcnt esgn ev)
  | _ =>
    if icnt == 0 then none
    else
      match parseExpPart cs2 with
      | none => none
      | some (esgn, ev) => some (decValue sc.1 ip 0 esgn ev)

/-- Python's `float(str)` on the decimal literals this API exchanges,
whitespace-stripped, modelled exactly over the rationals (`inf`/`nan` are
out of scope and fail). `none` models the `ValueError` on malformed input. -/
def parseFloat (s : String) : Option ℚ :=
  parseFloatCore (((s.data.dropWhile isPySpace).reverse.dropWhile isPySpace).reverse)

/-- Python's `float(x)` on a parsed JSON value: numbers pass through,
booleans coerce to 1 or 0, strings are parsed; `none` models the exception
raised on `None`, lists and dicts. -/
def pyFloat : Json → Option ℚ
  | .num q => some q
  | .bool b => some (if b then 1 else 0)
  | .str s => parseFloat s
  | _ => none

/-! ## The HTTP layer (`requests`), mocked as a transport function -/

/-- An HTTP response as the handlers see it: status code, raw body text, and
the parsed JSON body (`none` models a body `response.json()` raises on). -/
structure HttpResponse where
  status : Nat
  text : String
  jsonBody : Option Json

/-- The outcome of one `requests.get/post/delete` call: a response, or a
raised network-level exception (DNS, connect, timeout). -/
inductive TransportResult where
  | resp (r : HttpResponse) : TransportResult
  | raised (msg : String) : TransportResult

/-- One transmitted HTTP request: method, full URL, headers, and the
parameter mapping in insertion order. -/
structure SentRequest where
  method : String
  url : String
  headers : List (String × String)
  params : List (String × String)
deriving DecidableEq

/-- A mocked transport: what `requests` does with one request. -/
def Transport := SentRequest → TransportResult

/-- A transport returning the same response to every request. -/
def constTransport (r : HttpResponse) : Transport := fun _ => .resp r

/-- A transport raising a network-level exception on every request. -/
def raiseTransport (msg : String) : Transport := fun _ => .raised msg

/-! ## TradingBot (src/bot.py) -/

/-- The configuration module's values consumed by `TradingBot.__init__`. -/
structure Config where
  apiKey : String
  apiSecret : String
  baseUrl : String

/-- The `TradingBot` object state: credentials and base endpoint, immutable
after construction. -/
structure TradingBot where
  apiKey : String
  apiSecret : String
  baseUrl : String
deriving DecidableEq

/-- Python's `d[k] = v` on a dict modelled as an insertion-ordered
association list: replace in place when the key exists, append otherwise. -/
def dictSet : List (String × String) → String → String → List (String × String)
  | [], k, v => [(k, v)]
  | (k0, v0) :: rest, k, v =>
    if k0 == k then (k0, v) :: rest else (k0, v0) :: dictSet rest k v

/-- The `if signed:` block of `_make_request` (src/bot.py lines 63-65):
insert `timestamp` (epoch milliseconds, rendered in decimal as `urlencode`
renders the int), then insert `signature` computed over the parameters as
they stand after the timestamp insertion. -/
def signedParams (apiSecret : String) (params : List (String × String)) (now : Nat) :
    List (String × String) :=
  let p1 := dictSet params "timestamp" (Nat.repr now)
  dictSet p1 "signature" (generateSignature apiSecret p1)

/-- The parameter mapping `_make_request` hands to `requests`: the signed
transform when `signed` is true, the caller's parameters unchanged otherwise. -/
def transmittedParams (apiSecret : String) (params : List (String × String))
    (signed : Bool) (now : Nat) : List (String × String) :=
  if signed then signedParams apiSecret params now else params

/-- Model of `TradingBot._make_request` (src/bot.py lines 55-83). `now` is the value
of `int(time.time() * 1000)`. Returns the result (`None` modelled as `none`)
together with the list of HTTP requests actually transmitted. For a method
other than GET/POST/DELETE no branch assigns `response`; the `NameError`
raised on `response.status_code` inside the `try` is caught by the broad
handler, so the call returns `None` and no request is sent. A non-200
status is logged and `None` returned; a transport exception or a
`response.json()` failure is caught and `None` returned. -/
def makeRequest (bot : TradingBot) (transport : Transport) (now : Nat)
    (method : String) (endpoint : String) (params : List (String × String))
    (signed : Bool) : Option Json × List SentRequest :=
  let url := bot.baseUrl ++ endpoint
  let headers := [("X-MBX-APIKEY", bot.apiKey)]
  let ps := transmittedParams bot.apiSecret params signed now
  if method == "GET" || method == "POST" || method == "DELETE" then
    let req : SentRequest := ⟨method, url, headers, ps⟩
    match transport req with
    | .resp r =>
      if r.status == 200 then
        match r.jsonBody with
        | some j => (some j, [req])
        | none => (none, [req])
      else (none, [req])
    | .raised _ => (none, [req])
  else (none, [])

/-- Whether a parsed float is strictly positive (Python's `x > 0`), decided
on the numerator of the normalized rational so the kernel can evaluate it;
`ratPos_iff` connects it to the order on `ℚ`. -/
def ratPos (q : ℚ) : Bool := decide (0 < q.num)

/-- Whether one balance entry survives the logging loop of
`get_account_balance` (src/bot.py lines 93-97): `balance['free']` and then
`balance['locked']` must exist and coerce with `float`, and whenever
`free > 0 or locked > 0` holds the logging f-string also reads
`balance['asset']`, which must then exist; any raised `KeyError` or
`ValueError` is caught and the whole call returns `None`. -/
def balanceEntryOk (e : Json) : Bool :=
  match pyIndexStr e "free" with
  | none => false
  | some fv =>
    match pyFloat fv with
    | none => false
    | some free =>
      match pyIndexStr e "locked" with
      | none => false
      | some lv =>
        match pyFloat lv with
        | none => false
        | some locked =>
          if ratPos free || ratPos locked then (pyIndexStr e "asset").isSome
          else true

/-- Model of `TradingBot.get_account_balance` (src/bot.py lines 85-105): a signed GET
dispatch to `/api/v3/account`; when the result is truthy and contains
`balances` the logging loop runs over `data['balances']` (the nonzero
filter there selects only what is logged, and reads `balance['asset']` for
the selected entries) and the full `data['balances']` value is returned. -/
def getAccountBalance (bot : TradingBot) (transport : Transport) (now : Nat) :
    Option Json × List SentRequest :=
  let mr := makeRequest bot transport now "GET" "/api/v3/account" [] true
  (match mr.1 with
   | none => none
   | some data =>
     if pyTruthy data then
       match pyContains data "balances" with
       | some true =>
         match pyIndexStr data "balances" with
         | none => none
         | some balances =>
           match pyIter balances with
           | none => none
           | some entries =>
             if entries.all balanceEntryOk then some balances else none
       | _ => none
     else none,
   mr.2)

/-- Model of `TradingBot.get_current_price` (src/bot.py lines 107-122): an unsigned
GET dispatch to `/api/v3/ticker/price` with the single `symbol` parameter;
on a truthy result containing `price`, the `price` field coerced with
`float`. -/
def getCurrentPrice (bot : TradingBot) (transport : Transport) (now : Nat)
    (symbol : String) : Option ℚ × List SentRequest :=
  let mr := makeRequest bot transport now "GET" "/api/v3/ticker/price" [("symbol", symbol)] false
  (match mr.1 with
   | none => none
   | some data =>
     if pyTruthy data then
       match pyContains data "price" with
       | some true =>
         match pyIndexStr data "price" with
         | none => none
         | some v => pyFloat v
       | _ => none
     else none,
   mr.2)

/-- The success-logging step shared by the order-placing handlers: they call
`data.get('orderId')` and friends, which succeeds only on a dict; on any
other truthy value the `AttributeError` is caught and `None` returned. -/
def orderResult (data : Json) : Option Json :=
  if pyTruthy data then
    match data with
    | .obj _ => some data
    | _ => none
  else none

/-- Model of `TradingBot.place_market_order` (src/bot.py lines 124-159): a signed POST
dispatch to `/api/v3/order` with exactly `symbol, side, type=MARKET,
quantity` in that insertion order. `quantity` is taken already rendered to
the string `urlencode` would produce for it. -/
def placeMarketOrder (bot : TradingBot) (transport : Transport) (now : Nat)
    (symbol side quantity : String) : Option Json × List SentRequest :=
  let mr := makeRequest bot transport now "POST" "/api/v3/order"
    [("symbol", symbol), ("side", side), ("type", "MARKET"), ("quantity", quantity)] true
  (match mr.1 with
   | none => none
   | some data => orderResult data,
   mr.2)

/-- Model of `TradingBot.place_limit_order` (src/bot.py lines 161-199): a signed POST
dispatch to `/api/v3/order` with exactly `symbol, side, type=LIMIT,
timeInForce=GTC, quantity, price` in that insertion order. -/
def placeLimitOrder (bot : TradingBot) (transport : Transport) (now : Nat)
    (symbol side quantity price : String) : Option Json × List SentRequest :=
  let mr := makeRequest bot transport now "POST" "/api/v3/order"
    [("symbol", symbol), ("side", side), ("type", "LIMIT"), ("timeInForce", "GTC"),
     ("quantity", quantity), ("price", price)] true
  (match mr.1 with
   | none => none
   | some data => orderResult data,
   mr.2)

/-- Whether one open order survives the logging loop of `get_open_orders`:
`order['orderId']`, `order['side']`, `order['type']`, `order['price']` and
`order['origQty']` must all exist, else the raised exception is caught. -/
def orderLogOk (e : Json) : Bool :=
  (pyIndexStr e "orderId").isSome && (pyIndexStr e "side").isSome &&
  (pyIndexStr e "type").isSome && (pyIndexStr e "price").isSome &&
  (pyIndexStr e "origQty").isSome

/-- Model of `TradingBot.get_open_orders` (src/bot.py lines 201-224): a signed GET
dispatch to `/api/v3/openOrders`; the result is tested only against `None`
(`if data is not None:`), so an empty 200 body is returned as-is after the
logging loop over its elements. -/
def getOpenOrders (bot : TradingBot) (transport : Transport) (now : Nat)
    (symbol : String) : Option Json × List SentRequest :=
  let mr := makeRequest bot transport now "GET" "/api/v3/openOrders" [("symbol", symbol)] true
  (match mr.1 with
   | none => none
   | some data =>
     match pyLen data with
     | none => none
     | some n =>
       if n > 0 then
         match pyIter data with
         | none => none
         | some elems => if elems.all orderLogOk then some data else none
       else some data,
   mr.2)

/-- Model of `TradingBot.cancel_order` (src/bot.py lines 226-245): a signed DELETE
dispatch to `/api/v3/order` with `symbol, orderId`; a truthy result is
returned as-is (`orderId` is taken already rendered to its decimal string). -/
def cancelOrder (bot : TradingBot) (transport : Transport) (now : Nat)
    (symbol orderId : String) : Option Json × List SentRequest :=
  let mr := makeRequest bot transport now "DELETE" "/api/v3/order"
    [("symbol", symbol), ("orderId", orderId)] true
  (match mr.1 with
   | none => none
   | some data => if pyTruthy data then some data else none,
   mr.2)

/-- Model of `TradingBot._test_connection` (src/bot.py lines 40-53): a bare
`requests.get` of `/api/v3/ping` (no headers, no parameters); true on
status 200, false on any other status, false when the transport raises —
the exception is caught and logged. -/
def testConnection (bot : TradingBot) (transport : Transport) : Bool :=
  match transport ⟨"GET", bot.baseUrl ++ "/api/v3/ping", [], []⟩ with
  | .resp r => r.status == 200
  | .raised _ => false

/-- Model of `TradingBot.__init__` (src/bot.py lines 18-28): store the credentials
and base URL, then run `_test_connection`, whose boolean result is
discarded; construction completes regardless of the ping outcome. The pair
returns the constructed object together with that discarded boolean. -/
def mkTradingBot (cfg : Config) (transport : Transport) : TradingBot × Bool :=
  let bot : TradingBot := ⟨cfg.apiKey, cfg.apiSecret, cfg.baseUrl⟩
  (bot, testConnection bot transport)

/-! ## Key-counting helpers used by the signed-request theorems -/

/-- How many entries of a parameter mapping carry the given key. -/
def keyCount (params : List (String × String)) (key : String) : Nat :=
  (params.filter (fun kv => kv.1 == key)).length

/-- Whether any entry of a parameter mapping carries the given key. -/
def hasKey (params : List (String × String)) (key : String) : Bool :=
  params.any (fun kv => kv.1 == key)

/-- The number a byte string denotes in big-endian base 256; it identifies
a digest uniquely among the 32-byte strings and bounds the digest space. -/
def beNat : List Nat → Nat
  | [] => 0
  | b :: bs => b * 256 ^ bs.length + beNat bs

/-! ## Supporting lemmas -/

theorem beNat_lt_pow (bs : List Nat) (h : ∀ b ∈ bs, b < 256) :
    beNat bs < 256 ^ bs.length := by
  induction bs with
  | nil => simp [beNat]
  | cons b rest ih =>
    have hb : b < 256 := h b (List.mem_cons_self _ _)
    have hr : beNat rest < 256 ^ rest.length :=
      ih (fun x hx => h x (List.mem_cons_of_mem _ hx))
    have : b * 256 ^ rest.length + beNat rest < (b + 1) * 256 ^ rest.length := by
      rw [Nat.add_mul, Nat.one_mul]
      omega
    calc beNat (b :: rest) = b * 256 ^ rest.length + beNat rest := rfl
      _ < (b + 1) * 256 ^ rest.length := this
      _ ≤ 256 * 256 ^ rest.length := Nat.mul_le_mul_right _ (by omega)
      _ = 256 ^ (b :: rest).length := by rw [List.length_cons, Nat.pow_succ, Nat.mul_comm]

theorem beNat_cons (b : Nat) (bs : List Nat) :
    beNat (b :: bs) = b * 256 ^ bs.length + beNat bs := rfl

theorem beNat_inj (bs : List Nat) (hb : ∀ b ∈ bs, b < 256) (cs : List Nat)
    (hlen : bs.length = cs.length) (hc : ∀ c ∈ cs, c < 256)
    (heq : beNat bs = beNat cs) : bs = cs := by
  induction bs generalizing cs with
  | nil =>
    cases cs with
    | nil => rfl
    | cons c cr => cases hlen
  | cons b br ih =>
    cases cs with
    | nil => cases hlen
    | cons c cr =>
      have hl : br.length = cr.length := by simpa using hlen
      have hbr : beNat br < 256 ^ br.length :=
        beNat_lt_pow _ (fun x hx => hb x (List.mem_cons_of_mem _ hx))
      have hcr : beNat cr < 256 ^ br.length := by
        rw [hl]
        exact beNat_lt_pow _ (fun x hx => hc x (List.mem_cons_of_mem _ hx))
      rw [beNat_cons, beNat_cons, ← hl] at heq
      have hbc : b = c := by
        rcases Nat.lt_trichotomy b c with hlt | heqbc | hgt
        · exfalso
          have h1 : (b + 1) * 256 ^ br.length ≤ c * 256 ^ br.length :=
            Nat.mul_le_mul_right _ (by omega)
          rw [Nat.add_mul, Nat.one_mul] at h1
          omega
        · exact heqbc
        · exfalso
          have h1 : (c + 1) * 256 ^ br.length ≤ b * 256 ^ br.length :=
            Nat.mul_le_mul_right _ (by omega)
          rw [Nat.add_mul, Nat.one_mul] at h1
          omega
      subst hbc
      have hbeq : beNat br = beNat cr := by omega
      exact congrArg _
        (ih (fun x hx => hb x (List.mem_cons_of_mem _ hx)) cr hl
          (fun x hx => hc x (List.mem_cons_of_mem _ hx)) hbeq)

theorem dictSet_eq_append (l : List (String × String)) (k v : String)
    (h : hasKey l k = false) : dictSet l k v = l ++ [(k, v)] := by
  induction l with
  | nil => rfl
  | cons kv rest ih =>
    obtain ⟨k0, v0⟩ := kv
    simp only [hasKey, List.any_cons, Bool.or_eq_false_iff] at h
    simp only [dictSet, h.1, Bool.false_eq_true, if_false, List.cons_append, List.cons.injEq,
      true_and]
    exact ih h.2

theorem hasKey_append (l1 l2 : List (String × String)) (k : String) :
    hasKey (l1 ++ l2) k = (hasKey l1 k || hasKey l2 k) := by
  simp [hasKey]

theorem keyCount_append (l1 l2 : List (String × String)) (k : String) :
    keyCount (l1 ++ l2) k = keyCount l1 k + keyCount l2 k := by
  simp [keyCount, List.filter_append]

theorem keyCount_eq_zero (l : List (String × String)) (k : String)
    (h : hasKey l k = false) : keyCount l k = 0 := by
  induction l with
  | nil => rfl
  | cons kv rest ih =>
    simp only [hasKey, List.any_cons, Bool.or_eq_false_iff] at h
    simp only [keyCount, List.filter_cons, h.1]
    exact ih (by simpa [hasKey] using h.2)

theorem length_beBytes (k n : Nat) : (beBytes k n).length = k := by
  induction k generalizing n with
  | zero => rfl
  | succ k ih => simp [beBytes, ih]

theorem mem_beBytes_lt (k n b : Nat) (h : b ∈ beBytes k n) : b < 256 := by
  induction k generalizing n with
  | zero => cases h
  | succ k ih =>
    rcases List.mem_cons.1 h with h0 | h0
    · exact h0 ▸ Nat.mod_lt _ (by omega)
    · exact ih _ h0

theorem length_sha256 (msg : List Nat) : (sha256 msg).length = 32 := by
  simp [sha256, digestBytes, length_beBytes]

theorem mem_sha256_lt (msg : List Nat) (b : Nat) (h : b ∈ sha256 msg) : b < 256 := by
  simp only [sha256, digestBytes, List.mem_append] at h
  rcases h with ((((((h | h) | h) | h) | h) | h) | h) | h <;> exact mem_beBytes_lt _ _ _ h

theorem length_hmacSha256 (key msg : List Nat) : (hmacSha256 key msg).length = 32 :=
  length_sha256 _

theorem mem_hmacSha256_lt (key msg : List Nat) (b : Nat) (h : b ∈ hmacSha256 key msg) :
    b < 256 :=
  mem_sha256_lt _ _ h

theorem length_hexOfBytes (bs : List Nat) : (hexOfBytes bs).length = 2 * bs.length := by
  induction bs with
  | nil => rfl
  | cons b rest ih => simp [hexOfBytes, ih]; ring

theorem hexDigitChar_mem (n : Nat) : hexDigitChar n ∈ hexDigits := by
  by_cases h : n < 16
  · interval_cases n <;> decide
  · have hnone : hexDigits[n]? = none :=
      List.getElem?_eq_none (by rw [show hexDigits.length = 16 from rfl]; omega)
    have h0 : hexDigitChar n = '0' := by
      simp [hexDigitChar, List.getD_eq_getElem?_getD, hnone]
    rw [h0]
    decide

theorem mem_hexOfBytes (bs : List Nat) (c : Char) (h : c ∈ hexOfBytes bs) :
    c ∈ hexDigits := by
  induction bs with
  | nil => cases h
  | cons b rest ih =>
    rcases List.mem_cons.1 h with h0 | h0
    · exact h0 ▸ hexDigitChar_mem _
    · rcases List.mem_cons.1 h0 with h1 | h1
      · exact h1 ▸ hexDigitChar_mem _
      · exact ih h1

theorem ratPos_iff (q : ℚ) : ratPos q = true ↔ 0 < q := by
  simp [ratPos, Rat.num_pos]

theorem makeRequest_trace (bot : TradingBot) (transport : Transport) (now : Nat)
    (m e : String) (ps : List (String × String)) (sg : Bool)
    (hm : (m == "GET" || m == "POST" || m == "DELETE") = true) :
    (makeRequest bot transport now m e ps sg).2 =
      [⟨m, bot.baseUrl ++ e, [("X-MBX-APIKEY", bot.apiKey)],
        transmittedParams bot.apiSecret ps sg now⟩] := by
  simp only [makeRequest, hm, if_true]
  split
  · split
    · split <;> rfl
    · rfl
  · rfl

/-! ## C2: signed dispatch transmits exactly one timestamp and one final
signature, and the signature verifies against the transmitted set -/

/-- C2: a signed dispatch transmits exactly the parameter set
`transmittedParams`; when the caller-supplied parameters contain neither
`timestamp` nor `signature`, that set carries exactly one `timestamp` and
one `signature` entry, the `signature` entry is last, the parameters before
it are exactly the caller's followed by the timestamp in insertion order,
and re-signing them with the same secret reproduces the transmitted
signature value byte for byte. -/
theorem signed_dispatch_roundtrip (bot : TradingBot) (transport : Transport)
    (e : String) (P : List (String × String)) (now : Nat)
    (hts : hasKey P "timestamp" = false) (hsig : hasKey P "signature" = false) :
    (makeRequest bot transport now "POST" e P true).2 =
      [⟨"POST", bot.baseUrl ++ e, [("X-MBX-APIKEY", bot.apiKey)],
        transmittedParams bot.apiSecret P true now⟩] ∧
    keyCount (transmittedParams bot.apiSecret P true now) "timestamp" = 1 ∧
    keyCount (transmittedParams bot.apiSecret P true now) "signature" = 1 ∧
    (transmittedParams bot.apiSecret P true now).dropLast =
      P ++ [("timestamp", Nat.repr now)] ∧
    (transmittedParams bot.apiSecret P true now).getLast? =
      some ("signature",
        generateSignature bot.apiSecret
          ((transmittedParams bot.apiSecret P true now).dropLast)) := by
  have h1 : dictSet P "timestamp" (Nat.repr now) = P ++ [("timestamp", Nat.repr now)] :=
    dictSet_eq_append _ _ _ hts
  have h2 : hasKey (P ++ [("timestamp", Nat.repr now)]) "signature" = false := by
    rw [hasKey_append, hsig]
    rfl
  have hsent : transmittedParams bot.apiSecret P true now =
      (P ++ [("timestamp", Nat.repr now)]) ++
        [("signature",
          generateSignature bot.apiSecret (P ++ [("timestamp", Nat.repr now)]))] := by
    simp only [transmittedParams, signedParams, if_pos rfl, h1]
    exact dictSet_eq_append _ _ _ h2
  have hdrop : (transmittedParams bot.apiSecret P true now).dropLast =
      P ++ [("timestamp", Nat.repr now)] := by
    rw [hsent, List.dropLast_concat]
  refine ⟨makeRequest_trace bot transport now "POST" e P true rfl, ?_, ?_, hdrop, ?_⟩
  · rw [hsent, keyCount_append, keyCount_append, keyCount_eq_zero _ _ hts]
    rfl
  · rw [hsent, keyCount_append, keyCount_append, keyCount_eq_zero _ _ hsig]
    rfl
  · rw [hdrop, hsent, List.getLast?_concat]

/-- Witness for C2 at a concrete client, transport and parameter mapping. -/
theorem signed_dispatch_roundtrip_witness :
    (makeRequest ⟨"key", "secret", "https://testnet"⟩
        (raiseTransport "down") 1700000000000 "POST" "/api/v3/order"
        [("symbol", "BTCUSDT")] true).2 =
      [⟨"POST", "https://testnet" ++ "/api/v3/order", [("X-MBX-APIKEY", "key")],
        transmittedParams "secret" [("symbol", "BTCUSDT")] true 1700000000000⟩] ∧
    keyCount (transmittedParams "secret" [("symbol", "BTCUSDT")] true 1700000000000)
      "timestamp" = 1 ∧
    keyCount (transmittedParams "secret" [("symbol", "BTCUSDT")] true 1700000000000)
      "signature" = 1 ∧
    (transmittedParams "secret" [("symbol", "BTCUSDT")] true 1700000000000).dropLast =
      [("symbol", "BTCUSDT")] ++ [("timestamp", Nat.repr 1700000000000)] ∧
    (transmittedParams "secret" [("symbol", "BTCUSDT")] true 1700000000000).getLast? =
      some ("signature",
        generateSignature "secret"
          ((transmittedParams "secret" [("symbol", "BTCUSDT")] true 1700000000000).dropLast)) :=
  signed_dispatch_roundtrip ⟨"key", "secret", "https://testnet"⟩ (raiseTransport "down")
    "/api/v3/order" [("symbol", "BTCUSDT")] 1700000000000 (by decide) (by decide)

/-! ## C3: the signature is a deterministic 64-character lowercase hex
HMAC-SHA256 digest -/

/-- C3: for every parameter mapping and secret, `_generate_signature` is a
total function of its inputs whose result is the lowercase hex rendering of
the HMAC-SHA256 of the UTF-8 bytes of the url-encoded query string, keyed by
the UTF-8 bytes of the secret: exactly 64 characters, every one a lowercase
hexadecimal digit. -/
theorem generateSignature_spec (S : String) (P : List (String × String)) :
    (generateSignature S P).length = 64 ∧
    (∀ c ∈ (generateSignature S P).data, c ∈ hexDigits) ∧
    generateSignature S P =
      String.mk (hexOfBytes (hmacSha256 (utf8 S) (utf8 (urlencode P)))) := by
  refine ⟨?_, ?_, rfl⟩
  · show (String.mk (hexOfBytes (hmacSha256 (utf8 S) (utf8 (urlencode P))))).length = 64
    simp [String.length, length_hexOfBytes, length_hmacSha256]
  · intro c hc
    exact mem_hexOfBytes _ _ hc

/-! ## Mock fixtures shared by the concrete-scenario theorems -/

/-- A client with concrete credentials for mocked-transport scenarios. -/
def mockBot : TradingBot := ⟨"key", "secret", "https://testnet"⟩

/-- The BTC balance entry of the spec's account-balance scenario. -/
def balBTC : Json := .obj [("asset", .str "BTC"), ("free", .str "1.0"), ("locked", .str "0")]

/-- The ETH balance entry of the spec's account-balance scenario: free and
locked both zero. -/
def balETH : Json := .obj [("asset", .str "ETH"), ("free", .str "0"), ("locked", .str "0")]

/-- The account response body of the spec's account-balance scenario. -/
def accountBody : Json := .obj [("balances", .arr [balBTC, balETH])]

/-- The ticker response of the spec's price scenario. -/
def priceResp : HttpResponse := ⟨200, "", some (.obj [("price", .str "65000.50")])⟩

/-! ## C1: what getAccountBalance returns (corrected: the full balances
list, not the nonzero-filtered sublist) -/

/-- C1 counterexample: on the spec's own mocked scenario (HTTP 200, balances
BTC with free 1.0 and ETH with free 0 and locked 0), `get_account_balance`
returns the full two-entry balances array — the ETH entry, whose `free` and
`locked` are both zero (they parse to the rational 0), is present in the
returned list, and the result is not the one-entry filtered sublist the
claim requires. The `free > 0 or locked > 0` test in the source only guards
a logging statement. -/
theorem get_account_balance_counterexample :
    (getAccountBalance mockBot (constTransport ⟨200, "", some accountBody⟩) 0).1 =
      some (Json.arr [balBTC, balETH]) ∧
    pyIndexStr balETH "free" = some (Json.str "0") ∧
    pyIndexStr balETH "locked" = some (Json.str "0") ∧
    parseFloat "0" = some 0 ∧
    some (Json.arr [balBTC, balETH]) ≠ some (Json.arr [balBTC]) := by
  refine ⟨rfl, rfl, rfl, by decide, ?_⟩
  intro h
  have h1 := Json.arr.inj (Option.some.inj h)
  simp at h1

/-- C1 amended: for every mocked 200 response whose body is an object whose
first field is a `balances` array all of whose entries survive the logging
loop — `free` and `locked` exist and coerce with `float`, and an `asset`
key is present whenever `free > 0 or locked > 0` makes the loop log the
entry — `get_account_balance` returns the full `balances` array unchanged;
the nonzero filter only selects which entries are logged, and a logging
failure (missing `asset` on a logged entry) is the one way a well-formed
body still yields `None`. -/
theorem get_account_balance_returns_full_list (bot : TradingBot) (now : Nat) (txt : String)
    (bs : List Json) (rest : List (String × Json))
    (hok : bs.all balanceEntryOk = true) :
    (getAccountBalance bot
        (constTransport ⟨200, txt, some (.obj (("balances", Json.arr bs) :: rest))⟩) now).1 =
      some (Json.arr bs) := by
  simp [getAccountBalance, makeRequest, constTransport, transmittedParams, pyTruthy,
    pyContains, pyIndexStr, dictGet, pyIter, hok]

/-- Witness for the amended C1 at the spec's concrete balances. -/
theorem get_account_balance_returns_full_list_witness :
    (getAccountBalance mockBot
        (constTransport
          ⟨200, "", some (.obj (("balances", Json.arr [balBTC, balETH]) :: []))⟩) 0).1 =
      some (Json.arr [balBTC, balETH]) :=
  get_account_balance_returns_full_list mockBot 0 "" [balBTC, balETH] [] (by decide)

/-! ## C4: dispatch result classification (corrected: failures return a bare
None carrying neither the status code nor the body text) -/

/-- C4 counterexample: a 400 response with one body, a 502 response with a
different body, and a raised network failure all make `_make_request`
return the same bare `None` — the three results are equal, so the returned
failure carries neither the status code nor the raw body text, and the
network-level failure is not distinguished by any synthetic status. -/
theorem dispatch_failure_counterexample :
    (makeRequest mockBot (constTransport ⟨400, "code-1121-msg", some (.obj [])⟩) 0
        "GET" "/api/v3/account" [] false).1 = none ∧
    (makeRequest mockBot (constTransport ⟨502, "bad gateway", some .null⟩) 0
        "GET" "/api/v3/account" [] false).1 = none ∧
    (makeRequest mockBot (raiseTransport "connection timed out") 0
        "GET" "/api/v3/account" [] false).1 = none :=
  ⟨rfl, rfl, rfl⟩

/-- C4 amended: for every dispatch with method GET, POST or DELETE, an
HTTP 200 response yields the parsed JSON body (or `None` when the body does
not parse), every other status yields `None` (status and body are only
logged), and a transport-level failure yields `None` instead of propagating
the exception; every outcome is a value of the total function, never an
abort. -/
theorem dispatch_result_classification (bot : TradingBot) (now : Nat) (m e : String)
    (ps : List (String × String)) (sg : Bool) (r : HttpResponse) (msg : String)
    (hm : m = "GET" ∨ m = "POST" ∨ m = "DELETE") :
    (r.status = 200 → (makeRequest bot (constTransport r) now m e ps sg).1 = r.jsonBody) ∧
    (r.status ≠ 200 → (makeRequest bot (constTransport r) now m e ps sg).1 = none) ∧
    (makeRequest bot (raiseTransport msg) now m e ps sg).1 = none := by
  have hcond : (m == "GET" || m == "POST" || m == "DELETE") = true := by
    rcases hm with h | h | h <;> simp [h]
  refine ⟨?_, ?_, ?_⟩
  · intro h200
    cases hj : r.jsonBody with
    | none => simp [makeRequest, hcond, constTransport, h200, hj]
    | some j => simp [makeRequest, hcond, constTransport, h200, hj]
  · intro hne
    have hs : (r.status == 200) = false := by
      simpa using hne
    simp [makeRequest, hcond, constTransport, hs]
  · simp [makeRequest, hcond, raiseTransport]

/-- Witness for C4 at a concrete response and failure. -/
theorem dispatch_result_classification_witness :
    ((⟨200, "ok", some .null⟩ : HttpResponse).status = 200 →
      (makeRequest mockBot (constTransport ⟨200, "ok", some .null⟩) 0
          "GET" "/api/v3/ping" [] false).1 =
        (⟨200, "ok", some .null⟩ : HttpResponse).jsonBody) ∧
    ((⟨200, "ok", some .null⟩ : HttpResponse).status ≠ 200 →
      (makeRequest mockBot (constTransport ⟨200, "ok", some .null⟩) 0
          "GET" "/api/v3/ping" [] false).1 = none) ∧
    (makeRequest mockBot (raiseTransport "dns failure") 0 "GET" "/api/v3/ping" [] false).1 =
      none :=
  dispatch_result_classification mockBot 0 "GET" "/api/v3/ping" [] false
    ⟨200, "ok", some .null⟩ "dns failure" (Or.inl rfl)

/-! ## C5: getCurrentPrice dispatch shape and float parsing -/

/-- C5: `get_current_price` issues an unsigned GET dispatch to
`/api/v3/ticker/price` whose transmitted parameter mapping is exactly the
single `symbol` entry, and on the spec's mocked 200 response with price
string `65000.50` it returns `float('65000.50')`, the exact rational
130001/2, i.e. 65000.5. -/
theorem get_current_price_spec (bot : TradingBot) (now : Nat) (symbol : String) :
    (getCurrentPrice bot (constTransport priceResp) now symbol).2 =
      [⟨"GET", bot.baseUrl ++ "/api/v3/ticker/price", [("X-MBX-APIKEY", bot.apiKey)],
        [("symbol", symbol)]⟩] ∧
    (getCurrentPrice mockBot (constTransport priceResp) 0 "BTCUSDT").1 =
      some (mkRat 130001 2) ∧
    (mkRat 130001 2 : ℚ) = 130001 / 2 := by
  refine ⟨rfl, by decide, ?_⟩
  rw [Rat.mkRat_eq_div]
  norm_num

/-! ## C6: the order-placing operations transmit exactly the documented
parameters in insertion order -/

/-- C6: for every symbol, side, quantity and price, `place_market_order`
issues one signed POST dispatch to `/api/v3/order` whose pre-signing
parameter mapping is exactly `symbol, side, type=MARKET, quantity` in that
insertion order, and `place_limit_order` one whose mapping is exactly
`symbol, side, type=LIMIT, timeInForce=GTC, quantity, price` in that order;
the signing transform `transmittedParams` is applied to exactly those
mappings, with nothing else added before signing. -/
theorem order_dispatch_params (bot : TradingBot) (transport : Transport) (now : Nat)
    (symbol side quantity price : String) :
    (placeMarketOrder bot transport now symbol side quantity).2 =
      [⟨"POST", bot.baseUrl ++ "/api/v3/order", [("X-MBX-APIKEY", bot.apiKey)],
        transmittedParams bot.apiSecret
          [("symbol", symbol), ("side", side), ("type", "MARKET"), ("quantity", quantity)]
          true now⟩] ∧
    (placeLimitOrder bot transport now symbol side quantity price).2 =
      [⟨"POST", bot.baseUrl ++ "/api/v3/order", [("X-MBX-APIKEY", bot.apiKey)],
        transmittedParams bot.apiSecret
          [("symbol", symbol), ("side", side), ("type", "LIMIT"), ("timeInForce", "GTC"),
           ("quantity", quantity), ("price", price)] true now⟩] :=
  ⟨makeRequest_trace bot transport now "POST" "/api/v3/order" _ true rfl,
   makeRequest_trace bot transport now "POST" "/api/v3/order" _ true rfl⟩

/-! ## C8: a failing startup connectivity check does not stop construction -/

/-- C8: whether the ping endpoint answers with a non-200 status or the
transport raises, `_test_connection` returns false (after logging), and
`TradingBot.__init__` still completes normally: the constructed client — the
stored credentials and base URL — is handed back to the caller unchanged in
both cases. -/
theorem init_survives_ping_failure (cfg : Config) (r : HttpResponse) (msg : String)
    (hst : r.status ≠ 200) :
    testConnection ⟨cfg.apiKey, cfg.apiSecret, cfg.baseUrl⟩ (constTransport r) = false ∧
    mkTradingBot cfg (constTransport r) =
      (⟨cfg.apiKey, cfg.apiSecret, cfg.baseUrl⟩, false) ∧
    testConnection ⟨cfg.apiKey, cfg.apiSecret, cfg.baseUrl⟩ (raiseTransport msg) = false ∧
    mkTradingBot cfg (raiseTransport msg) =
      (⟨cfg.apiKey, cfg.apiSecret, cfg.baseUrl⟩, false) := by
  have hs : (r.status == 200) = false := by simpa using hst
  exact ⟨by simp [testConnection, constTransport, hs],
    by simp [mkTradingBot, testConnection, constTransport, hs],
    rfl, rfl⟩

/-- Witness for C8 at a concrete configuration and failing ping. -/
theorem init_survives_ping_failure_witness :
    testConnection ⟨"key", "secret", "https://testnet"⟩
      (constTransport ⟨500, "oops", none⟩) = false ∧
    mkTradingBot ⟨"key", "secret", "https://testnet"⟩ (constTransport ⟨500, "oops", none⟩) =
      (⟨"key", "secret", "https://testnet"⟩, false) ∧
    testConnection ⟨"key", "secret", "https://testnet"⟩ (raiseTransport "down") = false ∧
    mkTradingBot ⟨"key", "secret", "https://testnet"⟩ (raiseTransport "down") =
      (⟨"key", "secret", "https://testnet"⟩, false) :=
  init_survives_ping_failure ⟨"key", "secret", "https://testnet"⟩ ⟨500, "oops", none⟩
    "down" (by decide)

/-! ## C9: empty 200 bodies are failures for the truthiness-testing handlers
but successes for getOpenOrders -/

/-- C9: on a mocked 200 response whose parsed body is the empty list or the
empty dict, `place_market_order`, `place_limit_order` and `cancel_order`
return `None` (they test the result for truthiness and both empties are
falsy), while `get_open_orders` tests only `is not None` and hands the
empty body back to the caller as a success. -/
theorem empty_body_result_handling :
    (placeMarketOrder mockBot (constTransport ⟨200, "", some (Json.arr [])⟩) 0
        "BTCUSDT" "BUY" "0.01").1 = none ∧
    (placeLimitOrder mockBot (constTransport ⟨200, "", some (Json.arr [])⟩) 0
        "BTCUSDT" "BUY" "0.01" "50000").1 = none ∧
    (cancelOrder mockBot (constTransport ⟨200, "", some (Json.arr [])⟩) 0
        "BTCUSDT" "12345").1 = none ∧
    (placeMarketOrder mockBot (constTransport ⟨200, "", some (Json.obj [])⟩) 0
        "BTCUSDT" "BUY" "0.01").1 = none ∧
    (placeLimitOrder mockBot (constTransport ⟨200, "", some (Json.obj [])⟩) 0
        "BTCUSDT" "BUY" "0.01" "50000").1 = none ∧
    (cancelOrder mockBot (constTransport ⟨200, "", some (Json.obj [])⟩) 0
        "BTCUSDT" "12345").1 = none ∧
    (getOpenOrders mockBot (constTransport ⟨200, "", some (Json.arr [])⟩) 0
        "BTCUSDT").1 = some (Json.arr []) ∧
    (getOpenOrders mockBot (constTransport ⟨200, "", some (Json.obj [])⟩) 0
        "BTCUSDT").1 = some (Json.obj []) :=
  ⟨rfl, rfl, rfl, rfl, rfl, rfl, rfl, rfl⟩

/-! ## C10: an unknown HTTP method returns None without sending a request -/

/-- C10: for every method string other than GET, POST and DELETE,
`_make_request` assigns no response; the unbound-variable error raised
inside the `try` block is caught by the broad handler, so the call returns
`None` and the transmitted-request trace is empty — no HTTP request is
sent. -/
theorem unknown_method_no_request (bot : TradingBot) (transport : Transport) (now : Nat)
    (m e : String) (ps : List (String × String)) (sg : Bool)
    (h1 : m ≠ "GET") (h2 : m ≠ "POST") (h3 : m ≠ "DELETE") :
    makeRequest bot transport now m e ps sg = (none, []) := by
  have hc : (m == "GET" || m == "POST" || m == "DELETE") = false := by
    simp [h1, h2, h3]
  simp [makeRequest, hc]

/-- Witness for C10 at the concrete method PATCH. -/
theorem unknown_method_no_request_witness :
    makeRequest mockBot (constTransport ⟨200, "", some .null⟩) 0 "PATCH" "/api/v3/order"
      [] true = (none, []) :=
  unknown_method_no_request mockBot (constTransport ⟨200, "", some .null⟩) 0 "PATCH"
    "/api/v3/order" [] true (by decide) (by decide) (by decide)

/-! ## C7: signature mutation sensitivity (corrected: universal
collision-freedom is impossible for a fixed-length digest; the spec's
concrete mutation test does hold) -/

/-- C7 counterexample: the claim that changing the value of a single
parameter always changes the signature is false — the signatures live in
the finite space of 32-byte digests while there are infinitely many
single-parameter mappings, so by the pigeonhole principle two distinct
values of the parameter `a` under the secret `secret` share a signature.
This refutes the universally quantified claim, though no explicit colliding
pair is computable. -/
theorem signature_collision_exists :
    ¬ (∀ v v' : String, v ≠ v' →
        generateSignature "secret" [("a", v)] ≠ generateSignature "secret" [("a", v')]) := by
  intro h
  have pigeonhole : ∀ g : ℕ → List Nat, (∀ n, (g n).length = 32) →
      (∀ n b, b ∈ g n → b < 256) → ∃ n m, n ≠ m ∧ g n = g m := by
    intro g hlen hmem
    obtain ⟨n, m, hnm, hf⟩ :=
      Finite.exists_ne_map_eq_of_infinite (fun n : ℕ =>
        (⟨beNat (g n), by
          have hlt := beNat_lt_pow (g n) (hmem n)
          rwa [hlen] at hlt⟩ : Fin (256 ^ 32)))
    refine ⟨n, m, hnm, ?_⟩
    exact beNat_inj _ (hmem n) _ (by rw [hlen, hlen]) (hmem m) (congrArg Fin.val hf)
  obtain ⟨n, m, hnm, hdig⟩ := pigeonhole
    (fun n => hmacSha256 (utf8 "secret")
      (utf8 (urlencode [("a", String.mk (List.replicate n 'b'))])))
    (fun n => length_hmacSha256 _ _)
    (fun n b hb => mem_hmacSha256_lt _ _ _ hb)
  have hne : String.mk (List.replicate n 'b') ≠ String.mk (List.replicate m 'b') := by
    intro hEq
    apply hnm
    have hdata := congrArg String.data hEq
    have := congrArg List.length hdata
    simpa using this
  exact h (String.mk (List.replicate n 'b')) (String.mk (List.replicate m 'b')) hne
    (congrArg (fun d => String.mk (hexOfBytes d)) hdig)

set_option maxRecDepth 100000 in
set_option maxHeartbeats 4000000 in
/-- C7 amended: collisions must exist in principle, but mutation does change
the signature on the spec's concrete test: over the sample parameter
mapping `s=BTC, q=1` with secret `k`, five distinct single-value mutations
and a mutated secret each produce a signature different from the
original. -/
theorem signature_mutation_test :
    generateSignature "k" [("s", "ETH"), ("q", "1")] ≠
      generateSignature "k" [("s", "BTC"), ("q", "1")] ∧
    generateSignature "k" [("s", "BTCC"), ("q", "1")] ≠
      generateSignature "k" [("s", "BTC"), ("q", "1")] ∧
    generateSignature "k" [("s", "BTC"), ("q", "2")] ≠
      generateSignature "k" [("s", "BTC"), ("q", "1")] ∧
    generateSignature "k" [("s", "BTC"), ("q", "10")] ≠
      generateSignature "k" [("s", "BTC"), ("q", "1")] ∧
    generateSignature "k" [("s", "BTC"), ("q", "")] ≠
      generateSignature "k" [("s", "BTC"), ("q", "1")] ∧
    generateSignature "k2" [("s", "BTC"), ("q", "1")] ≠
      generateSignature "k" [("s", "BTC"), ("q", "1")] := by
  decide

end TradingBotSpec
